import Mathlib

/-!
Verification development for the djtu-wiki MNIST training scripts.

The repository has three Python scripts:
  * `docs/jobs/ai/mnist.py` — trains a dense MNIST classifier and saves it
    as a native H5 checkpoint at `mnist_model/model.h5`;
  * `docs/jobs/ai/convert_model.py` — loads the checkpoint and converts it
    to the browser-runtime format under `public/model`;
  * `scripts/train_mnist_model.py` — trains a convolutional classifier and
    converts it directly to the browser-runtime format under `public/model`.

Each script is a straight-line sequence of statements, so we embed it as a
list of `Step`s interpreted over an explicit program state: a filesystem
(directory names and files), the four dataset arrays, the model object under
construction, and the printed output.  External library calls (`model.save`,
`tf.keras.models.load_model`, `tfjs.converters.save_keras_model`,
`os.makedirs(..., exist_ok=True)`) are modelled by their documented effects
on the filesystem: saving writes a file at the given path (overwriting any
previous one), loading fails when the file is absent, the converter writes a
topology descriptor `model.json` and a binary weight shard into the target
directory, and `makedirs` with `exist_ok=True` creates the directory and
never raises when it already exists.
-/

/-- The pixel preprocessing applied by both training scripts:
`x.astype('float32') / 255.0`, modelled over the rationals. -/
def normalizePixel (p : ℚ) : ℚ := p / 255

/-- The Keras layers used by the two model builders, with their literal
arguments as they appear in the scripts. -/
inductive Layer where
  | inputL (shape : List Nat)
  | reshape (shape : List Nat)
  | flatten (inputShape : Option (List Nat))
  | dense (units : Nat) (activation : String)
  | dropout (rate : ℚ)
  | conv2D (filters : Nat) (kernel : Nat × Nat) (activation : String) (padding : String)
  | maxPooling2D (pool : Nat × Nat)
deriving DecidableEq, Repr

/-- The layer list built by `mnist.py` (lines 17–22). -/
def mnistLayers : List Layer :=
  [ .flatten (some [28, 28]),
    .dense 128 "relu",
    .dropout 0.2,
    .dense 10 "softmax" ]

/-- The layer list built by `train_mnist_model.py` (lines 13–28). -/
def trainLayers : List Layer :=
  [ .inputL [28, 28],
    .reshape [28, 28, 1],
    .conv2D 32 (3, 3) "relu" "same",
    .maxPooling2D (2, 2),
    .conv2D 64 (3, 3) "relu" "same",
    .maxPooling2D (2, 2),
    .flatten none,
    .dense 128 "relu",
    .dropout 0.2,
    .dense 10 "softmax" ]

/-- A Keras model object: its layer list, compile arguments, and, after
`fit`, the training configuration and the exact arrays passed to `fit`. -/
structure Model where
  layers : List Layer
  optimizer : String
  loss : String
  metrics : List String
  trainedEpochs : Nat
  fitBatchSize : Option Nat
  fitImages : List (List ℚ)
  fitLabels : List Nat
  valImages : List (List ℚ)
  valLabels : List Nat
deriving DecidableEq, Repr

/-- A freshly built (uncompiled, untrained) model, as produced by
`tf.keras.Sequential([...])`. -/
def Model.build (L : List Layer) : Model :=
  { layers := L, optimizer := "", loss := "", metrics := [],
    trainedEpochs := 0, fitBatchSize := none,
    fitImages := [], fitLabels := [], valImages := [], valLabels := [] }

/-- Contents of a file written by one of the scripts: a native H5 checkpoint
holding a model, or one of the two converted-artifact files produced by the
browser-format converter (the topology descriptor and a weight shard). -/
inductive FileData where
  | h5 (m : Model)
  | topologyJson (m : Model)
  | weightShard (m : Model)
deriving DecidableEq, Repr

/-- The filesystem: a list of existing directory names and an association
list from paths to file contents. -/
structure FS where
  dirs : List String
  files : List (String × FileData)
deriving DecidableEq, Repr

/-- `os.makedirs(p, exist_ok=True)`: creates the directory when it is
missing and does nothing (in particular, does not raise) when it exists. -/
def insertDir (p : String) (ds : List String) : List String :=
  if p ∈ ds then ds else p :: ds

/-- Writing a file at `p`, silently overwriting any previous file there. -/
def setFile (fsf : List (String × FileData)) (p : String) (d : FileData) :
    List (String × FileData) :=
  (p, d) :: fsf.filter (fun q => q.1 ≠ p)

/-- Look up the file at path `p`. -/
def findFile (p : String) : List (String × FileData) → Option FileData
  | [] => none
  | (q, d) :: rest => if q = p then some d else findFile p rest

/-- The MNIST dataset as returned by `mnist.load_data()`: raw pixel arrays
(entries in `0 .. 255`, modelled as rationals) and integer label arrays. -/
structure Dataset where
  x_train : List (List ℚ)
  y_train : List Nat
  x_test : List (List ℚ)
  y_test : List Nat
deriving DecidableEq, Repr

/-- The statements the three scripts consist of, in source order. -/
inductive Step where
  | printMsg (msg : String)
  | loadData
  | preprocess
  | buildModel (layers : List Layer)
  | compileModel (optimizer loss : String) (metrics : List String)
  | fit (epochs : Nat) (batchSize : Option Nat)
  | makedirs (path : String)
  | saveH5 (path : String)
  | loadModel (path : String)
  | saveTfjs (dir : String)
deriving DecidableEq, Repr

/-- Errors raised by the wrapped libraries and propagated unhandled. -/
inductive Err where
  | fileNotFound (path : String)
  | badFileFormat (path : String)
  | noModel
deriving DecidableEq, Repr

/-- Program state of a running script: the filesystem, the four dataset
variables, the in-memory model (if any), and the printed output lines. -/
structure PState where
  fs : FS
  x_train : List (List ℚ)
  y_train : List Nat
  x_test : List (List ℚ)
  y_test : List Nat
  model : Option Model
  printed : List String
deriving DecidableEq, Repr

/-- Path of the topology descriptor written by the converter into `d`. -/
def tfjsTopologyPath (d : String) : String := d ++ "/model.json"

/-- Path of the binary weight shard written by the converter into `d`. -/
def tfjsWeightPath (d : String) : String := d ++ "/group1-shard1of1.bin"

/-- One step of script execution.  `fit` records the exact arrays handed to
`model.fit` (images, labels and `validation_data`); `saveTfjs` models
`tfjs.converters.save_keras_model`, which creates the target directory and
writes the topology descriptor and one weight shard; `loadModel` models
`tf.keras.models.load_model`, which fails when the checkpoint is absent. -/
def stepEval (ds : Dataset) (s : PState) : Step → Except Err PState
  | .printMsg m => .ok { s with printed := s.printed ++ [m] }
  | .loadData => .ok { s with
      x_train := ds.x_train, y_train := ds.y_train,
      x_test := ds.x_test, y_test := ds.y_test }
  | .preprocess => .ok { s with
      x_train := s.x_train.map (fun row => row.map normalizePixel),
      x_test := s.x_test.map (fun row => row.map normalizePixel) }
  | .buildModel L => .ok { s with model := some (Model.build L) }
  | .compileModel o l ms =>
    match s.model with
    | none => .error .noModel
    | some m =>
      .ok { s with model := some ({ m with optimizer := o, loss := l, metrics := ms }) }
  | .fit e b =>
    match s.model with
    | none => .error .noModel
    | some m =>
      .ok { s with model := some ({ m with trainedEpochs := e, fitBatchSize := b, fitImages := s.x_train, fitLabels := s.y_train, valImages := s.x_test, valLabels := s.y_test }) }
  | .makedirs p => .ok { s with fs := ({ s.fs with dirs := insertDir p s.fs.dirs }) }
  | .saveH5 p =>
    match s.model with
    | none => .error .noModel
    | some m => .ok { s with fs := ({ s.fs with files := setFile s.fs.files p (.h5 m) }) }
  | .loadModel p =>
    match findFile p s.fs.files with
    | some (.h5 m) => .ok { s with model := some m }
    | some _ => .error (.badFileFormat p)
    | none => .error (.fileNotFound p)
  | .saveTfjs d =>
    match s.model with
    | none => .error .noModel
    | some m =>
      .ok { s with fs := ({ dirs := insertDir d s.fs.dirs, files := setFile (setFile s.fs.files (tfjsTopologyPath d) (.topologyJson m)) (tfjsWeightPath d) (.weightShard m) } : FS) }

/-- Run a straight-line script: execute the steps in order; on the first
library error, stop with that error, leaving the state as it was at the
point of failure (no partial progress past the failing call). -/
def runProg (ds : Dataset) : List Step → PState → PState × Option Err
  | [], s => (s, none)
  | st :: rest, s =>
    match stepEval ds s st with
    | .ok s2 => runProg ds rest s2
    | .error e => (s, some e)

/-- `docs/jobs/ai/mnist.py`, statement by statement. -/
def mnistScript : List Step :=
  [ .printMsg "TensorFlow version:",
    .printMsg "NumPy version:",
    .loadData,
    .preprocess,
    .buildModel mnistLayers,
    .compileModel "adam" "sparse_categorical_crossentropy" ["accuracy"],
    .fit 3 (some 32),
    .makedirs "mnist_model",
    .saveH5 "mnist_model/model.h5",
    .printMsg "Model saved successfully!" ]

/-- `docs/jobs/ai/convert_model.py`, statement by statement. -/
def convertScript : List Step :=
  [ .printMsg "TensorFlow.js version:",
    .loadModel "mnist_model/model.h5",
    .makedirs "public/model",
    .saveTfjs "public/model",
    .printMsg "Model converted successfully!" ]

/-- `scripts/train_mnist_model.py`, statement by statement. -/
def trainScript : List Step :=
  [ .loadData,
    .preprocess,
    .buildModel trainLayers,
    .compileModel "adam" "sparse_categorical_crossentropy" ["accuracy"],
    .fit 5 none,
    .saveTfjs "public/model" ]

/-- Fresh interpreter state over a given filesystem: no variables bound, no
model in memory, nothing printed (nothing persists across runs). -/
def initState (fs : FS) : PState :=
  { fs := fs, x_train := [], y_train := [], x_test := [], y_test := [],
    model := none, printed := [] }

/-- `convert_model.py` loads no dataset; its run uses an empty placeholder. -/
def emptyDataset : Dataset :=
  { x_train := [], y_train := [], x_test := [], y_test := [] }

/-- Run `mnist.py` on a dataset, starting from filesystem `fs`. -/
def run_mnist (ds : Dataset) (fs : FS) : PState × Option Err :=
  runProg ds mnistScript (initState fs)

/-- Run `convert_model.py` starting from filesystem `fs`. -/
def run_convert (fs : FS) : PState × Option Err :=
  runProg emptyDataset convertScript (initState fs)

/-- Run `train_mnist_model.py` on a dataset, starting from filesystem `fs`. -/
def run_train (ds : Dataset) (fs : FS) : PState × Option Err :=
  runProg ds trainScript (initState fs)

/-- Process entry point for `mnist.py`: the script reads neither `argv` nor
the environment, so its behaviour is a function of the dataset and the
filesystem alone. -/
def main_mnist (argv : List String) (env : List (String × String))
    (ds : Dataset) (fs : FS) : PState × Option Err :=
  run_mnist ds fs

/-- Process entry point for `convert_model.py` (ignores `argv`/environment). -/
def main_convert (argv : List String) (env : List (String × String))
    (fs : FS) : PState × Option Err :=
  run_convert fs

/-- Process entry point for `train_mnist_model.py` (ignores `argv`/environment). -/
def main_train (argv : List String) (env : List (String × String))
    (ds : Dataset) (fs : FS) : PState × Option Err :=
  run_train ds fs

/-- The model `mnist.py` holds after `model.fit(...)` returns: the dense
architecture, the compile arguments, 3 epochs at batch size 32, trained on
the normalized images with the raw integer labels. -/
def trainedMnistModel (ds : Dataset) : Model :=
  { layers := mnistLayers,
    optimizer := "adam", loss := "sparse_categorical_crossentropy",
    metrics := ["accuracy"],
    trainedEpochs := 3, fitBatchSize := some 32,
    fitImages := ds.x_train.map (fun row => row.map normalizePixel),
    fitLabels := ds.y_train,
    valImages := ds.x_test.map (fun row => row.map normalizePixel),
    valLabels := ds.y_test }

/-- The model `train_mnist_model.py` holds after `model.fit(...)` returns:
the convolutional architecture, 5 epochs at the library-default batch size. -/
def trainedConvModel (ds : Dataset) : Model :=
  { layers := trainLayers,
    optimizer := "adam", loss := "sparse_categorical_crossentropy",
    metrics := ["accuracy"],
    trainedEpochs := 5, fitBatchSize := none,
    fitImages := ds.x_train.map (fun row => row.map normalizePixel),
    fitLabels := ds.y_train,
    valImages := ds.x_test.map (fun row => row.map normalizePixel),
    valLabels := ds.y_test }

/-- The pipeline phases named by the spec, in their documented order. -/
inductive Phase where
  | dataLoad
  | dataPrep
  | modelBuild
  | modelTrain
  | modelExport
deriving DecidableEq, Repr

/-- Which pipeline phase (if any) a script statement belongs to. -/
def phaseOf : Step → Option Phase
  | .loadData => some .dataLoad
  | .preprocess => some .dataPrep
  | .buildModel _ => some .modelBuild
  | .fit _ _ => some .modelTrain
  | .saveH5 _ => some .modelExport
  | .saveTfjs _ => some .modelExport
  | _ => none

/-- The softmax activation of the final `Dense(10, activation='softmax')`
layer, parametrized by any strictly positive exponential-like function `e`
(the distribution property of softmax depends only on positivity of `e`). -/
def denseSoftmax (e : ℚ → ℚ) (z : Fin 10 → ℚ) (i : Fin 10) : ℚ :=
  e (z i) / ∑ j, e (z j)

/-! ## Helper facts -/

theorem mem_insertDir (p : String) (ds : List String) : p ∈ insertDir p ds := by
  unfold insertDir
  split
  · assumption
  · exact List.mem_cons_self _ _

/-! ## Claims -/

/-- Claim C1: running `mnist.py` to completion terminates without error and
writes the trained model as a native single-file checkpoint at the fixed
relative path `mnist_model/model.h5`, creating the `mnist_model` directory
(and leaving it in place when it already exists). -/
theorem mnist_writes_checkpoint (ds : Dataset) (fs : FS) :
    (run_mnist ds fs).2 = none ∧
    (run_mnist ds fs).1.fs.dirs = insertDir "mnist_model" fs.dirs ∧
    "mnist_model" ∈ (run_mnist ds fs).1.fs.dirs ∧
    findFile "mnist_model/model.h5" (run_mnist ds fs).1.fs.files
      = some (.h5 (trainedMnistModel ds)) := by
  refine ⟨rfl, rfl, mem_insertDir _ _, ?_⟩
  simp [run_mnist, runProg, stepEval, initState, setFile, findFile, trainedMnistModel,
    Model.build]

/-- Claim C2: running `convert_model.py` against a valid checkpoint at
`mnist_model/model.h5` terminates without error and produces converted
artifacts at the fixed relative path `public/model`: the directory exists
and holds the topology descriptor `model.json` and a weight-data file. -/
theorem convert_writes_artifacts (fs : FS) (m : Model)
    (h : findFile "mnist_model/model.h5" fs.files = some (.h5 m)) :
    (run_convert fs).2 = none ∧
    "public/model" ∈ (run_convert fs).1.fs.dirs ∧
    findFile "public/model/model.json" (run_convert fs).1.fs.files
      = some (.topologyJson m) ∧
    findFile "public/model/group1-shard1of1.bin" (run_convert fs).1.fs.files
      = some (.weightShard m) := by
  refine ⟨?_, ?_, ?_, ?_⟩ <;>
    simp [run_convert, runProg, stepEval, initState, h, setFile, findFile,
      tfjsTopologyPath, tfjsWeightPath, insertDir] <;>
    split <;> simp_all

/-- Witness for C2 at a concrete filesystem holding a checkpoint. -/
theorem convert_writes_artifacts_witness :
    findFile "mnist_model/model.h5"
        (FS.mk [] [("mnist_model/model.h5", .h5 (Model.build []))]).files
      = some (.h5 (Model.build [])) ∧
    (run_convert (FS.mk [] [("mnist_model/model.h5", .h5 (Model.build []))])).2 = none ∧
    "public/model" ∈
      (run_convert (FS.mk [] [("mnist_model/model.h5", .h5 (Model.build []))])).1.fs.dirs ∧
    findFile "public/model/model.json"
        (run_convert (FS.mk [] [("mnist_model/model.h5", .h5 (Model.build []))])).1.fs.files
      = some (.topologyJson (Model.build [])) ∧
    findFile "public/model/group1-shard1of1.bin"
        (run_convert (FS.mk [] [("mnist_model/model.h5", .h5 (Model.build []))])).1.fs.files
      = some (.weightShard (Model.build [])) := by
  refine ⟨by decide, ?_⟩
  have h2 := convert_writes_artifacts
    (FS.mk [] [("mnist_model/model.h5", .h5 (Model.build []))]) (Model.build []) (by decide)
  exact ⟨h2.1, h2.2.1, h2.2.2.1, h2.2.2.2⟩

/-- Claim C3: both model builders end in a `Dense(10, activation='softmax')`
layer; saving and reloading the checkpoint returns the model unchanged; and
the softmax of the final layer — for any strictly positive exponential-like
function — returns, for any 10-vector of logits, a probability distribution
over exactly 10 classes: every component lies in `[0, 1]` and the components
sum to exactly 1. -/
theorem final_layer_softmax_distribution (e : ℚ → ℚ) (he : ∀ x, 0 < e x)
    (z : Fin 10 → ℚ) :
    mnistLayers.getLast? = some (.dense 10 "softmax") ∧
    trainLayers.getLast? = some (.dense 10 "softmax") ∧
    (∀ (fsf : List (String × FileData)) (m : Model),
      findFile "mnist_model/model.h5" (setFile fsf "mnist_model/model.h5" (.h5 m))
        = some (.h5 m)) ∧
    (∀ i, 0 ≤ denseSoftmax e z i ∧ denseSoftmax e z i ≤ 1) ∧
    ∑ i, denseSoftmax e z i = 1 := by
  have hS : 0 < ∑ j, e (z j) :=
    Finset.sum_pos (fun j _ => he (z j)) Finset.univ_nonempty
  refine ⟨by decide, by decide, ?_, ?_, ?_⟩
  · intro fsf m
    simp [setFile, findFile]
  · intro i
    constructor
    · exact div_nonneg (he (z i)).le hS.le
    · exact (div_le_one hS).mpr
        (Finset.single_le_sum (fun j _ => (he (z j)).le) (Finset.mem_univ i))
  · simp only [denseSoftmax]
    rw [← Finset.sum_div, div_self hS.ne']

/-- Witness for C3: the constant-one positive function on the zero logits. -/
theorem final_layer_softmax_distribution_witness :
    mnistLayers.getLast? = some (.dense 10 "softmax") ∧
    trainLayers.getLast? = some (.dense 10 "softmax") ∧
    (∀ (fsf : List (String × FileData)) (m : Model),
      findFile "mnist_model/model.h5" (setFile fsf "mnist_model/model.h5" (.h5 m))
        = some (.h5 m)) ∧
    (∀ i, 0 ≤ denseSoftmax (fun _ => 1) (fun _ => 0) i ∧
          denseSoftmax (fun _ => 1) (fun _ => 0) i ≤ 1) ∧
    ∑ i, denseSoftmax (fun _ => 1) (fun _ => 0) i = 1 :=
  final_layer_softmax_distribution (fun _ => 1) (fun _ => one_pos) (fun _ => 0)

/-- Claim C4: the three scripts read neither `argv` nor the environment, so
two runs differing only in `argv` or environment execute identically; and
the pipeline parameters (epoch count, batch size, layer widths) occur as
hard-coded literals in the script bodies. -/
theorem no_configuration_surface (argv argv2 : List String)
    (env env2 : List (String × String)) (ds : Dataset) (fs : FS) :
    main_mnist argv env ds fs = main_mnist argv2 env2 ds fs ∧
    main_convert argv env fs = main_convert argv2 env2 fs ∧
    main_train argv env ds fs = main_train argv2 env2 ds fs ∧
    Step.fit 3 (some 32) ∈ mnistScript ∧
    Step.fit 5 none ∈ trainScript ∧
    Layer.dense 128 "relu" ∈ mnistLayers ∧
    Layer.dense 10 "softmax" ∈ mnistLayers ∧
    Layer.conv2D 32 (3, 3) "relu" "same" ∈ trainLayers ∧
    Layer.conv2D 64 (3, 3) "relu" "same" ∈ trainLayers ∧
    Layer.dense 128 "relu" ∈ trainLayers ∧
    Layer.dense 10 "softmax" ∈ trainLayers :=
  ⟨rfl, rfl, rfl, by decide, by decide, by decide, by decide, by decide, by decide,
    by decide, by decide⟩

/-- Claim C5: when the input checkpoint `mnist_model/model.h5` is missing,
`convert_model.py` fails at load time with the library's file-not-found
error, and the filesystem is exactly as it was: the `public/model`
directory has not been created and no artifact has been written. -/
theorem convert_fails_cleanly_without_checkpoint (fs : FS)
    (h : findFile "mnist_model/model.h5" fs.files = none) :
    (run_convert fs).2 = some (.fileNotFound "mnist_model/model.h5") ∧
    (run_convert fs).1.fs = fs := by
  constructor <;> simp [run_convert, runProg, stepEval, initState, h]

/-- Witness for C5 at the empty filesystem. -/
theorem convert_fails_cleanly_without_checkpoint_witness :
    findFile "mnist_model/model.h5" (FS.mk [] []).files = none ∧
    (run_convert (FS.mk [] [])).2 = some (.fileNotFound "mnist_model/model.h5") ∧
    (run_convert (FS.mk [] [])).1.fs = FS.mk [] [] := by
  refine ⟨rfl, ?_⟩
  exact convert_fails_cleanly_without_checkpoint (FS.mk [] []) rfl

/-- Claim C6: the preprocessor divides each pixel by 255; every pixel value
in `[0, 255]` is mapped into `[0, 1]`; and in both training scripts the map
is applied elementwise to both the training and the test image arrays. -/
theorem preprocess_normalizes :
    (∀ p : ℚ, 0 ≤ p → p ≤ 255 → 0 ≤ normalizePixel p ∧ normalizePixel p ≤ 1) ∧
    (∀ (ds : Dataset) (fs : FS),
      (run_mnist ds fs).1.x_train = ds.x_train.map (fun row => row.map normalizePixel) ∧
      (run_mnist ds fs).1.x_test = ds.x_test.map (fun row => row.map normalizePixel) ∧
      (run_train ds fs).1.x_train = ds.x_train.map (fun row => row.map normalizePixel) ∧
      (run_train ds fs).1.x_test = ds.x_test.map (fun row => row.map normalizePixel)) := by
  constructor
  · intro p hp0 hp255
    constructor
    · exact div_nonneg hp0 (by norm_num)
    · rw [normalizePixel, div_le_one (by norm_num)]
      exact hp255
  · intro ds fs
    exact ⟨rfl, rfl, rfl, rfl⟩

/-- Witness for C6 at the concrete pixel value 128. -/
theorem preprocess_normalizes_witness :
    (0 : ℚ) ≤ 128 ∧ (128 : ℚ) ≤ 255 ∧
    (0 ≤ normalizePixel 128 ∧ normalizePixel 128 ≤ 1) :=
  ⟨by norm_num, by norm_num, preprocess_normalizes.1 128 (by norm_num) (by norm_num)⟩

/-- Claim C7: each script's statements, projected onto the pipeline phases,
appear exactly in the order load, preprocess, build, train, export, and the
sequential interpreter runs them in that order; the exported checkpoint
records the fully trained model (3 epochs in `mnist.py`, 5 in
`train_mnist_model.py`), so export happens only after training; and a run
touches the filesystem only by adding the output directory and writing the
output files — no other state survives the run. -/
theorem control_flow_sequential (ds : Dataset) (fs : FS) :
    mnistScript.filterMap phaseOf
      = [.dataLoad, .dataPrep, .modelBuild, .modelTrain, .modelExport] ∧
    trainScript.filterMap phaseOf
      = [.dataLoad, .dataPrep, .modelBuild, .modelTrain, .modelExport] ∧
    (run_mnist ds fs).1.fs.dirs = insertDir "mnist_model" fs.dirs ∧
    (run_mnist ds fs).1.fs.files
      = setFile fs.files "mnist_model/model.h5" (.h5 (trainedMnistModel ds)) ∧
    (trainedMnistModel ds).trainedEpochs = 3 ∧
    (run_train ds fs).1.fs.dirs = insertDir "public/model" fs.dirs ∧
    (run_train ds fs).1.fs.files
      = setFile (setFile fs.files (tfjsTopologyPath "public/model")
            (.topologyJson (trainedConvModel ds)))
          (tfjsWeightPath "public/model") (.weightShard (trainedConvModel ds)) ∧
    (trainedConvModel ds).trainedEpochs = 5 := by
  refine ⟨by decide, by decide, rfl, ?_, rfl, rfl, ?_, rfl⟩ <;>
    simp [run_mnist, run_train, runProg, stepEval, initState, setFile,
      trainedMnistModel, trainedConvModel, Model.build]

/-- Claim C9: the preprocessor touches only the image arrays; the label
arrays `y_train` and `y_test` reach `model.fit` unchanged, exactly as the
dataset loader returned them, in both training scripts. -/
theorem labels_passed_unchanged (ds : Dataset) (fs : FS) :
    (run_mnist ds fs).1.model = some (trainedMnistModel ds) ∧
    (trainedMnistModel ds).fitLabels = ds.y_train ∧
    (trainedMnistModel ds).valLabels = ds.y_test ∧
    (run_mnist ds fs).1.y_train = ds.y_train ∧
    (run_mnist ds fs).1.y_test = ds.y_test ∧
    (run_train ds fs).1.model = some (trainedConvModel ds) ∧
    (trainedConvModel ds).fitLabels = ds.y_train ∧
    (trainedConvModel ds).valLabels = ds.y_test ∧
    (run_train ds fs).1.y_train = ds.y_train ∧
    (run_train ds fs).1.y_test = ds.y_test := by
  refine ⟨?_, rfl, rfl, rfl, rfl, ?_, rfl, rfl, rfl, rfl⟩ <;>
    simp [run_mnist, run_train, runProg, stepEval, initState,
      trainedMnistModel, trainedConvModel, Model.build]

/-- Claim C10: rerunning an output-producing script with its outputs already
present succeeds: a pre-existing `mnist_model` or `public/model` directory
does not make `makedirs` (called with `exist_ok=True`) raise, and a
pre-existing checkpoint or artifact file is silently overwritten with the
freshly produced one. -/
theorem rerun_with_outputs_present_succeeds (ds : Dataset) (fs : FS)
    (m mj : Model)
    (h1 : "mnist_model" ∈ fs.dirs)
    (h2 : findFile "mnist_model/model.h5" fs.files = some (.h5 m))
    (h3 : "public/model" ∈ fs.dirs)
    (h4 : findFile "public/model/model.json" fs.files = some (.topologyJson mj)) :
    (run_mnist ds fs).2 = none ∧
    findFile "mnist_model/model.h5" (run_mnist ds fs).1.fs.files
      = some (.h5 (trainedMnistModel ds)) ∧
    (run_convert fs).2 = none ∧
    findFile "public/model/model.json" (run_convert fs).1.fs.files
      = some (.topologyJson m) ∧
    findFile "public/model/group1-shard1of1.bin" (run_convert fs).1.fs.files
      = some (.weightShard m) ∧
    (run_train ds fs).2 = none ∧
    findFile "public/model/model.json" (run_train ds fs).1.fs.files
      = some (.topologyJson (trainedConvModel ds)) := by
  refine ⟨rfl, ?_, ?_, ?_, ?_, rfl, ?_⟩
  · simp [run_mnist, runProg, stepEval, initState, setFile, findFile,
      trainedMnistModel, Model.build]
  · simp [run_convert, runProg, stepEval, initState, h2]
  · simp [run_convert, runProg, stepEval, initState, h2, setFile, findFile,
      tfjsTopologyPath, tfjsWeightPath]
  · simp [run_convert, runProg, stepEval, initState, h2, setFile, findFile,
      tfjsTopologyPath, tfjsWeightPath]
  · simp [run_train, runProg, stepEval, initState, setFile, findFile,
      trainedConvModel, Model.build, tfjsTopologyPath, tfjsWeightPath]

/-- Witness for C10: a filesystem already holding both output directories,
the checkpoint, and the converted artifacts. -/
theorem rerun_with_outputs_present_succeeds_witness :
    ("mnist_model" ∈ (FS.mk ["mnist_model", "public/model"]
        [("mnist_model/model.h5", .h5 (Model.build [])),
         ("public/model/model.json", .topologyJson (Model.build [])),
         ("public/model/group1-shard1of1.bin", .weightShard (Model.build []))]).dirs) ∧
    (run_convert (FS.mk ["mnist_model", "public/model"]
        [("mnist_model/model.h5", .h5 (Model.build [])),
         ("public/model/model.json", .topologyJson (Model.build [])),
         ("public/model/group1-shard1of1.bin", .weightShard (Model.build []))])).2
      = none ∧
    findFile "public/model/model.json"
        (run_convert (FS.mk ["mnist_model", "public/model"]
          [("mnist_model/model.h5", .h5 (Model.build [])),
           ("public/model/model.json", .topologyJson (Model.build [])),
           ("public/model/group1-shard1of1.bin", .weightShard (Model.build []))])).1.fs.files
      = some (.topologyJson (Model.build [])) := by
  have h := rerun_with_outputs_present_succeeds emptyDataset
    (FS.mk ["mnist_model", "public/model"]
      [("mnist_model/model.h5", .h5 (Model.build [])),
       ("public/model/model.json", .topologyJson (Model.build [])),
       ("public/model/group1-shard1of1.bin", .weightShard (Model.build []))])
    (Model.build []) (Model.build [])
    (by decide) (by decide) (by decide) (by decide)
  exact ⟨by decide, h.2.2.1, h.2.2.2.1⟩
